import Mathlib

/-
Shallow embedding of tools/gentool/gentool.go (gorm-gen command line tool).

External effects (file system, YAML decoding, database drivers, the gorm/gen
generator) are modelled as explicit parameters or abstract action values:
  * the outcome of opening and YAML-decoding the config file is a parameter
    of type Except String YamlConfig;
  * a successful gorm.Open is represented by the ConnectAction value that
    records which driver was invoked with which dsn, so "a connection was
    attempted" is exactly "an openConn value was produced";
  * g.GenerateModel is an abstract parameter generateModel : String → α;
  * db.Migrator().GetTables() is a parameter of type
    Except String (List String);
  * log.Fatalf / log.Fatalln termination is modelled as an Except.error
    result carrying the fatal message.
-/

set_option autoImplicit false

namespace GenTool

/-- DBType database type (Go: type DBType string). -/
abbrev DBType := String

/-- Go constant dbMySQL. -/
def dbMySQL : DBType := "mysql"

/-- Go constant dbPostgres. -/
def dbPostgres : DBType := "postgres"

/-- Go constant dbSQLite. -/
def dbSQLite : DBType := "sqlite"

/-- Go constant dbSQLServer. -/
def dbSQLServer : DBType := "sqlserver"

/-- Go constant dbClickHouse. -/
def dbClickHouse : DBType := "clickhouse"

/-- CmdParams is the command line / config file parameter structure.
Field defaults are Go zero values (empty string, empty slice, false). -/
structure CmdParams where
  DSN : String := ""
  DB : String := ""
  Tables : List String := []
  OnlyModel : Bool := false
  OutPath : String := ""
  OutFile : String := ""
  WithUnitTest : Bool := false
  ModelPkgName : String := ""
  FieldNullable : Bool := false
  FieldWithIndexTag : Bool := false
  FieldWithTypeTag : Bool := false
  FieldSignable : Bool := false
deriving Repr, DecidableEq

/-- The Go zero value of CmdParams (what `var cmdParse CmdParams` declares). -/
def emptyCmdParams : CmdParams := {}

/-- YamlConfig is the yaml config struct; Database is a pointer, hence Option. -/
structure YamlConfig where
  Version : String := ""
  Database : Option CmdParams := none
deriving Repr, DecidableEq

/-- A successful gorm.Open call, recording the chosen driver and the dsn.
connectDB producing this value is the model of "a connection was attempted". -/
inductive ConnectAction where
  | openConn (driver : DBType) (dsn : String)
deriving Repr, DecidableEq

/-- connectDB chooses the db driver for the connection to the database.
Returns the gorm.Open action on success, the error message otherwise. -/
def connectDB (t : DBType) (dsn : String) : Except String ConnectAction :=
  if dsn = "" then
    Except.error "dsn cannot be empty"
  else if t = dbMySQL then
    Except.ok (ConnectAction.openConn dbMySQL dsn)
  else if t = dbPostgres then
    Except.ok (ConnectAction.openConn dbPostgres dsn)
  else if t = dbSQLite then
    Except.ok (ConnectAction.openConn dbSQLite dsn)
  else if t = dbSQLServer then
    Except.ok (ConnectAction.openConn dbSQLServer dsn)
  else if t = dbClickHouse then
    Except.ok (ConnectAction.openConn dbClickHouse dsn)
  else
    Except.error ("unknow db \"" ++ t ++
      "\" (support mysql || postgres || sqlite || sqlserver for now)")

/-- genModels generates the models.  g.GenerateModel and
db.Migrator().GetTables() are external, so they enter as the parameters
generateModel and migratorGetTables.  With an empty tables argument the
migrator's full table list is used; the loop filling models[i] from
tablesList[i] is List.map. -/
def genModels {α : Type} (generateModel : String → α)
    (migratorGetTables : Except String (List String))
    (tables : List String) : Except String (List α) :=
  let tablesListE : Except String (List String) :=
    if tables.length = 0 then
      match migratorGetTables with
      | Except.error e => Except.error ("GORM migrator get all tables fail: " ++ e)
      | Except.ok ts => Except.ok ts
    else
      Except.ok tables
  match tablesListE with
  | Except.error e => Except.error e
  | Except.ok tablesList => Except.ok (tablesList.map generateModel)

/-- loadConfigFile loads the config file from a path.  The outcome of
os.Open plus yaml Decode at that path is the parameter (an error for an
unreadable file or a failed decode, the decoded YamlConfig otherwise);
the function returns the config's Database section, which may be nil. -/
def loadConfigFile (fileOutcome : Except String YamlConfig) :
    Except String (Option CmdParams) :=
  match fileOutcome with
  | Except.error e => Except.error e
  | Except.ok yamlConfig => Except.ok yamlConfig.Database

/-- Empty string config fields are filled with default values. -/
def defaultStrParams (params : CmdParams) : CmdParams :=
  let params := if params.DB = "" then { params with DB := "mysql" } else params
  if params.OutPath = "" then { params with OutPath := "./dao/query" } else params

/-- The string values of the command line flags; Go's flag.String gives each
flag the default value "". -/
structure Flags where
  c : String := ""
  dsn : String := ""
  db : String := ""
  tables : String := ""
  onlyModel : String := ""
  outPath : String := ""
  outFile : String := ""
  withUnitTest : String := ""
  modelPkgName : String := ""
  fieldNullable : String := ""
  fieldWithIndexTag : String := ""
  fieldWithTypeTag : String := ""
  fieldSignable : String := ""
deriving Repr, DecidableEq

/-- The "cmd first" block of argParse: each non-empty flag value overwrites
the corresponding field, in the order of the source; boolean fields are set
by comparison with the literal "true", the tables flag is split on ",". -/
def applyCmdFlags (cmdParse : CmdParams) (f : Flags) : CmdParams :=
  let cmdParse := if f.dsn ≠ "" then { cmdParse with DSN := f.dsn } else cmdParse
  let cmdParse := if f.db ≠ "" then { cmdParse with DB := f.db } else cmdParse
  let cmdParse := if f.tables ≠ "" then
    { cmdParse with Tables := f.tables.splitOn "," } else cmdParse
  let cmdParse := if f.onlyModel ≠ "" then
    { cmdParse with OnlyModel := f.onlyModel == "true" } else cmdParse
  let cmdParse := if f.outPath ≠ "" then
    { cmdParse with OutPath := f.outPath } else cmdParse
  let cmdParse := if f.outFile ≠ "" then
    { cmdParse with OutFile := f.outFile } else cmdParse
  let cmdParse := if f.withUnitTest ≠ "" then
    { cmdParse with WithUnitTest := f.withUnitTest == "true" } else cmdParse
  let cmdParse := if f.modelPkgName ≠ "" then
    { cmdParse with ModelPkgName := f.modelPkgName } else cmdParse
  let cmdParse := if f.fieldNullable ≠ "" then
    { cmdParse with FieldNullable := f.fieldNullable == "true" } else cmdParse
  let cmdParse := if f.fieldWithIndexTag ≠ "" then
    { cmdParse with FieldWithIndexTag := f.fieldWithIndexTag == "true" } else cmdParse
  let cmdParse := if f.fieldWithTypeTag ≠ "" then
    { cmdParse with FieldWithTypeTag := f.fieldWithTypeTag == "true" } else cmdParse
  if f.fieldSignable ≠ "" then
    { cmdParse with FieldSignable := f.fieldSignable == "true" } else cmdParse

/-- argParse is the parser for the command line.  load is the result of
loadConfigFile at the -c path (consulted only when the -c flag is non-empty).
A load error is log.Fatalf, modelled as Except.error; a nil Database section
with no error leaves the zero-valued cmdParse in place.  After the config
file step the non-empty flags overwrite their fields ("cmd first") and
defaultStrParams fills the string defaults. -/
def argParse (f : Flags) (load : Except String (Option CmdParams)) :
    Except String CmdParams :=
  let base : Except String CmdParams :=
    if f.c ≠ "" then
      match load with
      | Except.ok (some configFileParams) => Except.ok configFileParams
      | Except.ok none => Except.ok emptyCmdParams
      | Except.error e => Except.error ("loadConfigFile fail " ++ e)
    else
      Except.ok emptyCmdParams
  match base with
  | Except.error e => Except.error e
  | Except.ok cmdParse => Except.ok (defaultStrParams (applyCmdFlags cmdParse f))

/-- One step of the generator pipeline in main, as an abstract action. -/
inductive GenAction (α : Type) where
  | useDB
  | applyBasic (models : List α)
  | execute
deriving Repr, DecidableEq

/-- The main pipeline: parse the configuration, connect, generate the models,
then run the generator: UseDB, ApplyBasic on the models unless OnlyModel is
set, and Execute.  Each log.Fatalln is an Except.error; the success value is
the sequence of generator actions performed.  (The `config == nil` check of
the source is unreachable, argParse always returns a non-nil pointer; the
gen.NewGenerator configuration record forwards config fields unchanged and
is not part of any claim.) -/
def mainRun {α : Type} (f : Flags) (load : Except String (Option CmdParams))
    (generateModel : String → α)
    (migratorGetTables : Except String (List String)) :
    Except String (List (GenAction α)) :=
  match argParse f load with
  | Except.error e => Except.error e
  | Except.ok config =>
    match connectDB config.DB config.DSN with
    | Except.error e => Except.error ("connect db server fail: " ++ e)
    | Except.ok _ =>
      match genModels generateModel migratorGetTables config.Tables with
      | Except.error e => Except.error ("get tables info fail: " ++ e)
      | Except.ok models =>
        Except.ok ([GenAction.useDB] ++
          (if !config.OnlyModel then [GenAction.applyBasic models] else []) ++
          [GenAction.execute])

/-! Projection lemmas for applyCmdFlags: each flag override touches exactly
its own field. -/

@[simp] theorem applyCmdFlags_DSN (c : CmdParams) (f : Flags) :
    (applyCmdFlags c f).DSN = if f.dsn ≠ "" then f.dsn else c.DSN := by
  simp [applyCmdFlags, apply_ite CmdParams.DSN]

@[simp] theorem applyCmdFlags_DB (c : CmdParams) (f : Flags) :
    (applyCmdFlags c f).DB = if f.db ≠ "" then f.db else c.DB := by
  simp [applyCmdFlags, apply_ite CmdParams.DB]

@[simp] theorem applyCmdFlags_Tables (c : CmdParams) (f : Flags) :
    (applyCmdFlags c f).Tables =
      if f.tables ≠ "" then f.tables.splitOn "," else c.Tables := by
  simp [applyCmdFlags, apply_ite CmdParams.Tables]

@[simp] theorem applyCmdFlags_OnlyModel (c : CmdParams) (f : Flags) :
    (applyCmdFlags c f).OnlyModel =
      if f.onlyModel ≠ "" then f.onlyModel == "true" else c.OnlyModel := by
  simp [applyCmdFlags, apply_ite CmdParams.OnlyModel]

@[simp] theorem applyCmdFlags_OutPath (c : CmdParams) (f : Flags) :
    (applyCmdFlags c f).OutPath = if f.outPath ≠ "" then f.outPath else c.OutPath := by
  simp [applyCmdFlags, apply_ite CmdParams.OutPath]

@[simp] theorem applyCmdFlags_OutFile (c : CmdParams) (f : Flags) :
    (applyCmdFlags c f).OutFile = if f.outFile ≠ "" then f.outFile else c.OutFile := by
  simp [applyCmdFlags, apply_ite CmdParams.OutFile]

@[simp] theorem applyCmdFlags_WithUnitTest (c : CmdParams) (f : Flags) :
    (applyCmdFlags c f).WithUnitTest =
      if f.withUnitTest ≠ "" then f.withUnitTest == "true" else c.WithUnitTest := by
  simp [applyCmdFlags, apply_ite CmdParams.WithUnitTest]

@[simp] theorem applyCmdFlags_ModelPkgName (c : CmdParams) (f : Flags) :
    (applyCmdFlags c f).ModelPkgName =
      if f.modelPkgName ≠ "" then f.modelPkgName else c.ModelPkgName := by
  simp [applyCmdFlags, apply_ite CmdParams.ModelPkgName]

@[simp] theorem applyCmdFlags_FieldNullable (c : CmdParams) (f : Flags) :
    (applyCmdFlags c f).FieldNullable =
      if f.fieldNullable ≠ "" then f.fieldNullable == "true" else c.FieldNullable := by
  simp [applyCmdFlags, apply_ite CmdParams.FieldNullable]

@[simp] theorem applyCmdFlags_FieldWithIndexTag (c : CmdParams) (f : Flags) :
    (applyCmdFlags c f).FieldWithIndexTag =
      if f.fieldWithIndexTag ≠ "" then f.fieldWithIndexTag == "true"
      else c.FieldWithIndexTag := by
  simp [applyCmdFlags, apply_ite CmdParams.FieldWithIndexTag]

@[simp] theorem applyCmdFlags_FieldWithTypeTag (c : CmdParams) (f : Flags) :
    (applyCmdFlags c f).FieldWithTypeTag =
      if f.fieldWithTypeTag ≠ "" then f.fieldWithTypeTag == "true"
      else c.FieldWithTypeTag := by
  simp [applyCmdFlags, apply_ite CmdParams.FieldWithTypeTag]

@[simp] theorem applyCmdFlags_FieldSignable (c : CmdParams) (f : Flags) :
    (applyCmdFlags c f).FieldSignable =
      if f.fieldSignable ≠ "" then f.fieldSignable == "true" else c.FieldSignable := by
  simp [applyCmdFlags, apply_ite CmdParams.FieldSignable]

/-! Projection lemmas for defaultStrParams: only DB and OutPath are filled,
every other field is preserved. -/

@[simp] theorem defaultStrParams_DSN (p : CmdParams) :
    (defaultStrParams p).DSN = p.DSN := by
  simp [defaultStrParams, apply_ite CmdParams.DSN]

@[simp] theorem defaultStrParams_DB (p : CmdParams) :
    (defaultStrParams p).DB = if p.DB = "" then "mysql" else p.DB := by
  simp [defaultStrParams, apply_ite CmdParams.DB]

@[simp] theorem defaultStrParams_Tables (p : CmdParams) :
    (defaultStrParams p).Tables = p.Tables := by
  simp [defaultStrParams, apply_ite CmdParams.Tables]

@[simp] theorem defaultStrParams_OnlyModel (p : CmdParams) :
    (defaultStrParams p).OnlyModel = p.OnlyModel := by
  simp [defaultStrParams, apply_ite CmdParams.OnlyModel]

@[simp] theorem defaultStrParams_OutPath (p : CmdParams) :
    (defaultStrParams p).OutPath =
      if p.OutPath = "" then "./dao/query" else p.OutPath := by
  simp [defaultStrParams, apply_ite CmdParams.OutPath]

@[simp] theorem defaultStrParams_OutFile (p : CmdParams) :
    (defaultStrParams p).OutFile = p.OutFile := by
  simp [defaultStrParams, apply_ite CmdParams.OutFile]

@[simp] theorem defaultStrParams_WithUnitTest (p : CmdParams) :
    (defaultStrParams p).WithUnitTest = p.WithUnitTest := by
  simp [defaultStrParams, apply_ite CmdParams.WithUnitTest]

@[simp] theorem defaultStrParams_ModelPkgName (p : CmdParams) :
    (defaultStrParams p).ModelPkgName = p.ModelPkgName := by
  simp [defaultStrParams, apply_ite CmdParams.ModelPkgName]

@[simp] theorem defaultStrParams_FieldNullable (p : CmdParams) :
    (defaultStrParams p).FieldNullable = p.FieldNullable := by
  simp [defaultStrParams, apply_ite CmdParams.FieldNullable]

@[simp] theorem defaultStrParams_FieldWithIndexTag (p : CmdParams) :
    (defaultStrParams p).FieldWithIndexTag = p.FieldWithIndexTag := by
  simp [defaultStrParams, apply_ite CmdParams.FieldWithIndexTag]

@[simp] theorem defaultStrParams_FieldWithTypeTag (p : CmdParams) :
    (defaultStrParams p).FieldWithTypeTag = p.FieldWithTypeTag := by
  simp [defaultStrParams, apply_ite CmdParams.FieldWithTypeTag]

@[simp] theorem defaultStrParams_FieldSignable (p : CmdParams) :
    (defaultStrParams p).FieldSignable = p.FieldSignable := by
  simp [defaultStrParams, apply_ite CmdParams.FieldSignable]

/-- Shape of a successful argParse run: the result is always
defaultStrParams (applyCmdFlags base f) where base is the loaded config
file section (when -c was given and the file held one) or the zero value
(no -c flag, or a decoded file with a nil Database section). -/
theorem argParse_ok_base (f : Flags) (load : Except String (Option CmdParams))
    (p : CmdParams) (hok : argParse f load = Except.ok p) :
    ∃ base : CmdParams, p = defaultStrParams (applyCmdFlags base f) ∧
      ((f.c ≠ "" ∧ load = Except.ok (some base)) ∨
       (base = emptyCmdParams ∧ (f.c = "" ∨ load = Except.ok none))) := by
  simp only [argParse] at hok
  by_cases hc : f.c = ""
  · rw [if_neg (by simp [hc])] at hok
    simp only [Except.ok.injEq] at hok
    exact ⟨emptyCmdParams, hok.symm, Or.inr ⟨rfl, Or.inl hc⟩⟩
  · rw [if_pos hc] at hok
    match load with
    | Except.error e =>
      simp at hok
    | Except.ok none =>
      simp only [Except.ok.injEq] at hok
      exact ⟨emptyCmdParams, hok.symm, Or.inr ⟨rfl, Or.inr rfl⟩⟩
    | Except.ok (some q) =>
      simp only [Except.ok.injEq] at hok
      exact ⟨q, hok.symm, Or.inl ⟨hc, rfl⟩⟩

/-- C1: For every configuration field, when a CLI flag supplies a non-empty
value for that field, the final configuration returned by argParse holds the
flag's value (a boolean field holds the comparison of the flag value with
"true", the tables field the comma-split of the flag value), overriding any
value for the same field loaded from the config file. -/
theorem C1_cli_flag_overrides_file (f : Flags)
    (load : Except String (Option CmdParams)) (p : CmdParams)
    (hok : argParse f load = Except.ok p) :
    (f.dsn ≠ "" → p.DSN = f.dsn) ∧
    (f.db ≠ "" → p.DB = f.db) ∧
    (f.tables ≠ "" → p.Tables = f.tables.splitOn ",") ∧
    (f.onlyModel ≠ "" → p.OnlyModel = (f.onlyModel == "true")) ∧
    (f.outPath ≠ "" → p.OutPath = f.outPath) ∧
    (f.outFile ≠ "" → p.OutFile = f.outFile) ∧
    (f.withUnitTest ≠ "" → p.WithUnitTest = (f.withUnitTest == "true")) ∧
    (f.modelPkgName ≠ "" → p.ModelPkgName = f.modelPkgName) ∧
    (f.fieldNullable ≠ "" → p.FieldNullable = (f.fieldNullable == "true")) ∧
    (f.fieldWithIndexTag ≠ "" →
      p.FieldWithIndexTag = (f.fieldWithIndexTag == "true")) ∧
    (f.fieldWithTypeTag ≠ "" →
      p.FieldWithTypeTag = (f.fieldWithTypeTag == "true")) ∧
    (f.fieldSignable ≠ "" → p.FieldSignable = (f.fieldSignable == "true")) := by
  obtain ⟨base, hp, -⟩ := argParse_ok_base f load p hok
  subst hp
  refine ⟨?_, ?_, ?_, ?_, ?_, ?_, ?_, ?_, ?_, ?_, ?_, ?_⟩ <;> intro h <;> simp [h]

/-- A flag assignment supplying a value for every field except tables
(tables is exercised separately, see C9). -/
def flagsAll : Flags :=
  { c := "", dsn := "dsn1", db := "postgres", tables := "",
    onlyModel := "true", outPath := "./out", outFile := "my.go",
    withUnitTest := "True", modelPkgName := "pkg", fieldNullable := "1",
    fieldWithIndexTag := "true", fieldWithTypeTag := "false",
    fieldSignable := "yes" }

/-- The configuration argParse computes from flagsAll with no config file. -/
def pAll : CmdParams :=
  { DSN := "dsn1", DB := "postgres", Tables := [], OnlyModel := true,
    OutPath := "./out", OutFile := "my.go", WithUnitTest := false,
    ModelPkgName := "pkg", FieldNullable := false, FieldWithIndexTag := true,
    FieldWithTypeTag := false, FieldSignable := false }

/-- Witness for C1 at a concrete flag assignment. -/
theorem C1_witness :
    argParse flagsAll (Except.ok none) = Except.ok pAll ∧
    pAll.DSN = "dsn1" ∧ pAll.DB = "postgres" ∧ pAll.OnlyModel = true ∧
    pAll.WithUnitTest = false ∧ pAll.FieldWithIndexTag = true := by
  have hok : argParse flagsAll (Except.ok none) = Except.ok pAll := by rfl
  have h := C1_cli_flag_overrides_file flagsAll (Except.ok none) pAll hok
  exact ⟨hok, h.1 (by decide), h.2.1 (by decide), h.2.2.2.1 (by decide),
    h.2.2.2.2.2.2.1 (by decide), h.2.2.2.2.2.2.2.2.2.1 (by decide)⟩

/-- C2: The defaults DB = "mysql" and OutPath = "./dao/query" appear in the
final configuration exactly when neither the config file nor the
corresponding CLI flag supplies a non-empty value for the field; when either
source supplies a non-empty value, that value is kept (the flag first). -/
theorem C2_defaults_only_when_unset (f : Flags)
    (load : Except String (Option CmdParams)) (p fp : CmdParams)
    (hok : argParse f load = Except.ok p) :
    (f.db ≠ "" → p.DB = f.db) ∧
    (f.db = "" → f.c ≠ "" → load = Except.ok (some fp) → fp.DB ≠ "" →
      p.DB = fp.DB) ∧
    (f.db = "" → f.c ≠ "" → load = Except.ok (some fp) → fp.DB = "" →
      p.DB = "mysql") ∧
    (f.db = "" → (f.c = "" ∨ load = Except.ok none) → p.DB = "mysql") ∧
    (f.outPath ≠ "" → p.OutPath = f.outPath) ∧
    (f.outPath = "" → f.c ≠ "" → load = Except.ok (some fp) → fp.OutPath ≠ "" →
      p.OutPath = fp.OutPath) ∧
    (f.outPath = "" → f.c ≠ "" → load = Except.ok (some fp) → fp.OutPath = "" →
      p.OutPath = "./dao/query") ∧
    (f.outPath = "" → (f.c = "" ∨ load = Except.ok none) →
      p.OutPath = "./dao/query") := by
  obtain ⟨base, hp, hbase⟩ := argParse_ok_base f load p hok
  subst hp
  refine ⟨fun h => by simp [h], ?_, ?_, ?_, fun h => by simp [h], ?_, ?_, ?_⟩
  · intro hdb hc hload hfp
    rcases hbase with ⟨-, hl⟩ | ⟨-, hco | hco⟩
    · rw [hload] at hl
      obtain rfl : fp = base := by simpa using hl
      simp [hdb, hfp]
    · exact absurd hco hc
    · rw [hload] at hco
      simp at hco
  · intro hdb hc hload hfp
    rcases hbase with ⟨-, hl⟩ | ⟨-, hco | hco⟩
    · rw [hload] at hl
      obtain rfl : fp = base := by simpa using hl
      simp [hdb, hfp]
    · exact absurd hco hc
    · rw [hload] at hco
      simp at hco
  · intro hdb hor
    rcases hbase with ⟨hc, hl⟩ | ⟨rfl, -⟩
    · rcases hor with hco | hco
      · exact absurd hco hc
      · rw [hco] at hl
        simp at hl
    · simp [hdb, emptyCmdParams]
  · intro hout hc hload hfp
    rcases hbase with ⟨-, hl⟩ | ⟨-, hco | hco⟩
    · rw [hload] at hl
      obtain rfl : fp = base := by simpa using hl
      simp [hout, hfp]
    · exact absurd hco hc
    · rw [hload] at hco
      simp at hco
  · intro hout hc hload hfp
    rcases hbase with ⟨-, hl⟩ | ⟨-, hco | hco⟩
    · rw [hload] at hl
      obtain rfl : fp = base := by simpa using hl
      simp [hout, hfp]
    · exact absurd hco hc
    · rw [hload] at hco
      simp at hco
  · intro hout hor
    rcases hbase with ⟨hc, hl⟩ | ⟨rfl, -⟩
    · rcases hor with hco | hco
      · exact absurd hco hc
      · rw [hco] at hl
        simp at hl
    · simp [hout, emptyCmdParams]

/-- Flags for the C2 witness: a config file is given, neither db nor outPath
is supplied on the command line. -/
def flagsC2 : Flags := { c := "gen.yml" }

/-- Config file section for the C2 witness: db set, outPath left empty. -/
def fpC2 : CmdParams := { DB := "clickhouse" }

/-- What argParse computes from flagsC2 and fpC2. -/
def pC2 : CmdParams := { DB := "clickhouse", OutPath := "./dao/query" }

/-- Witness for C2: the file's db value is kept, the unset outPath gets the
default. -/
theorem C2_witness :
    argParse flagsC2 (Except.ok (some fpC2)) = Except.ok pC2 ∧
    pC2.DB = "clickhouse" ∧ pC2.OutPath = "./dao/query" := by
  have hok : argParse flagsC2 (Except.ok (some fpC2)) = Except.ok pC2 := by rfl
  have h := C2_defaults_only_when_unset flagsC2 (Except.ok (some fpC2)) pC2 fpC2 hok
  exact ⟨hok, h.2.1 (by decide) (by decide) rfl (by decide),
    h.2.2.2.2.2.2.1 (by decide) (by decide) rfl (by decide)⟩

/-- C3: genModels with an empty tables list enumerates all tables through
the migrator and generates one model per enumerated table; the generation
pass is never empty merely because the requested list was empty. -/
theorem C3_empty_tables_means_all_tables (α : Type) (generateModel : String → α)
    (migratorGetTables : Except String (List String)) (allTables : List String)
    (hmig : migratorGetTables = Except.ok allTables) :
    genModels generateModel migratorGetTables [] =
      Except.ok (allTables.map generateModel) ∧
    (allTables.map generateModel).length = allTables.length := by
  subst hmig
  simp [genModels]

/-- Witness for C3: with no requested tables, both tables reported by the
migrator get a model. -/
theorem C3_witness :
    genModels (fun s => s ++ "_model") (Except.ok ["users", "orders"]) [] =
      Except.ok ["users_model", "orders_model"] := by
  have h := C3_empty_tables_means_all_tables String (fun s => s ++ "_model")
    (Except.ok ["users", "orders"]) ["users", "orders"] rfl
  exact h.1.trans (by rfl)

/-- C4 counterexample: at db "oracle" with an empty dsn, connectDB returns
the empty-dsn error, not an error rejecting the unrecognized db value. -/
theorem C4_counterexample :
    connectDB "oracle" "" = Except.error "dsn cannot be empty" ∧
    connectDB "oracle" "" ≠ Except.error
      ("unknow db \"oracle\" (support mysql || postgres || sqlite || sqlserver for now)") := by
  have h1 : connectDB "oracle" "" = Except.error "dsn cannot be empty" := rfl
  refine ⟨h1, fun h => ?_⟩
  rw [h1] at h
  have h2 : "dsn cannot be empty" =
      "unknow db \"oracle\" (support mysql || postgres || sqlite || sqlserver for now)" := by
    injection h
  exact absurd h2 (by decide)

/-- C4 (amended): for every db value outside the five supported ones,
connectDB returns an error and never produces a connection attempt: the
empty-dsn error when the dsn is empty, and otherwise the explicit error
naming the unrecognized db value. -/
theorem C4_unknown_db_rejected_before_connect (t : DBType) (dsn : String)
    (h : t ∉ ["mysql", "postgres", "sqlite", "sqlserver", "clickhouse"]) :
    connectDB t dsn = Except.error (if dsn = "" then "dsn cannot be empty"
      else "unknow db \"" ++ t ++
        "\" (support mysql || postgres || sqlite || sqlserver for now)") := by
  simp only [List.mem_cons, List.not_mem_nil, or_false, not_or] at h
  obtain ⟨h1, h2, h3, h4, h5⟩ := h
  by_cases hd : dsn = ""
  · simp [connectDB, hd]
  · simp [connectDB, hd, dbMySQL, dbPostgres, dbSQLite, dbSQLServer,
      dbClickHouse, h1, h2, h3, h4, h5]

/-- Witness for C4 (amended) at db "oracle" with a non-empty dsn. -/
theorem C4_witness :
    connectDB "oracle" "dsn1" = Except.error
      ("unknow db \"oracle\" (support mysql || postgres || sqlite || sqlserver for now)") := by
  have h := C4_unknown_db_rejected_before_connect "oracle" "dsn1" (by decide)
  exact h.trans (congrArg Except.error (if_neg (by decide)))

/-- Flags for the C5 witness: a config file path is supplied. -/
def flagsC5 : Flags := { c := "gen.yml", db := "postgres" }

/-- C5: when a config file path is given via -c and loading it fails (the
file is unreadable or does not parse as YAML), argParse terminates fatally
with the load error; it never continues with an empty configuration. -/
theorem C5_config_load_failure_is_fatal (f : Flags)
    (fileOutcome : Except String YamlConfig) (e : String)
    (hc : f.c ≠ "") (he : fileOutcome = Except.error e) :
    argParse f (loadConfigFile fileOutcome) =
      Except.error ("loadConfigFile fail " ++ e) := by
  subst he
  simp [argParse, loadConfigFile, hc]

/-- Witness for C5 with a concrete YAML decode failure. -/
theorem C5_witness :
    argParse flagsC5 (loadConfigFile (Except.error "yaml: unmarshal errors")) =
      Except.error "loadConfigFile fail yaml: unmarshal errors" := by
  exact C5_config_load_failure_is_fatal flagsC5
    (Except.error "yaml: unmarshal errors") "yaml: unmarshal errors"
    (by decide) rfl

/-- C6: for every boolean configuration field, a non-empty CLI flag value
sets the field by string comparison with the literal "true": the field is
true exactly when the flag value equals "true". -/
theorem C6_bool_flags_compare_literal_true (f : Flags)
    (load : Except String (Option CmdParams)) (p : CmdParams)
    (hok : argParse f load = Except.ok p) :
    (f.onlyModel ≠ "" → (p.OnlyModel = true ↔ f.onlyModel = "true")) ∧
    (f.withUnitTest ≠ "" → (p.WithUnitTest = true ↔ f.withUnitTest = "true")) ∧
    (f.fieldNullable ≠ "" →
      (p.FieldNullable = true ↔ f.fieldNullable = "true")) ∧
    (f.fieldWithIndexTag ≠ "" →
      (p.FieldWithIndexTag = true ↔ f.fieldWithIndexTag = "true")) ∧
    (f.fieldWithTypeTag ≠ "" →
      (p.FieldWithTypeTag = true ↔ f.fieldWithTypeTag = "true")) ∧
    (f.fieldSignable ≠ "" →
      (p.FieldSignable = true ↔ f.fieldSignable = "true")) := by
  obtain ⟨base, hp, -⟩ := argParse_ok_base f load p hok
  subst hp
  refine ⟨?_, ?_, ?_, ?_, ?_, ?_⟩ <;> intro h <;> simp [h]

/-- Witness for C6: flag "true" yields true, the non-literal "True" yields
false, as do "1" and "yes". -/
theorem C6_witness :
    pAll.OnlyModel = true ∧ pAll.WithUnitTest = false ∧
    pAll.FieldNullable = false ∧ pAll.FieldSignable = false := by
  have h := C6_bool_flags_compare_literal_true flagsAll (Except.ok none) pAll
    (by rfl)
  refine ⟨(h.1 (by decide)).mpr (by decide), Bool.eq_false_iff.mpr ?_,
    Bool.eq_false_iff.mpr ?_, Bool.eq_false_iff.mpr ?_⟩
  · intro hh
    exact absurd ((h.2.1 (by decide)).mp hh) (by decide)
  · intro hh
    exact absurd ((h.2.2.1 (by decide)).mp hh) (by decide)
  · intro hh
    exact absurd ((h.2.2.2.2.2 (by decide)).mp hh) (by decide)

/-- C7: when OnlyModel is true, main skips ApplyBasic (the generated models
are not applied for query generation) and runs only UseDB and Execute; when
OnlyModel is false, the models are passed to ApplyBasic before Execute. -/
theorem C7_onlyModel_skips_query_generation (α : Type) (f : Flags)
    (load : Except String (Option CmdParams)) (generateModel : String → α)
    (migratorGetTables : Except String (List String)) (p : CmdParams)
    (conn : ConnectAction) (models : List α)
    (hp : argParse f load = Except.ok p)
    (hc : connectDB p.DB p.DSN = Except.ok conn)
    (hm : genModels generateModel migratorGetTables p.Tables =
      Except.ok models) :
    (p.OnlyModel = true →
      mainRun f load generateModel migratorGetTables =
        Except.ok [GenAction.useDB, GenAction.execute]) ∧
    (p.OnlyModel = false →
      mainRun f load generateModel migratorGetTables =
        Except.ok [GenAction.useDB, GenAction.applyBasic models,
          GenAction.execute]) := by
  constructor <;> intro ho <;> simp [mainRun, hp, hc, hm, ho]

/-- Flags for the C7 witness: sqlite connection, onlyModel set to "true". -/
def flagsC7 : Flags := { dsn := "gen.db", db := "sqlite", onlyModel := "true" }

/-- The configuration argParse computes from flagsC7. -/
def pC7 : CmdParams :=
  { DSN := "gen.db", DB := "sqlite", OnlyModel := true,
    OutPath := "./dao/query" }

/-- Witness for C7: with onlyModel true the pipeline performs UseDB and
Execute but no ApplyBasic. -/
theorem C7_witness :
    mainRun flagsC7 (Except.ok none) (fun s => s) (Except.ok ["users"]) =
      Except.ok [GenAction.useDB, GenAction.execute] := by
  have h := C7_onlyModel_skips_query_generation String flagsC7 (Except.ok none)
    (fun s => s) (Except.ok ["users"]) pC7
    (ConnectAction.openConn "sqlite" "gen.db") ["users"] rfl rfl rfl
  exact h.1 rfl

/-- C8: for every db type tag, connectDB with an empty dsn returns the error
"dsn cannot be empty" without attempting any connection; the check precedes
the db-type dispatch, so it fires for unrecognized db values too. -/
theorem C8_empty_dsn_checked_first (t : DBType) :
    connectDB t "" = Except.error "dsn cannot be empty" := by
  simp [connectDB]

/-- C9: genModels with a non-empty tables argument succeeds with one model
per requested table, at the same index (order preserved, no deduplication,
no filtering), without consulting the migrator. -/
theorem C9_requested_tables_one_model_each (α : Type) (generateModel : String → α)
    (migratorGetTables : Except String (List String)) (tables : List String)
    (h : tables ≠ []) :
    genModels generateModel migratorGetTables tables =
      Except.ok (tables.map generateModel) ∧
    (tables.map generateModel).length = tables.length ∧
    (∀ (i : Nat) (t : String), tables[i]? = some t →
      (tables.map generateModel)[i]? = some (generateModel t)) := by
  have hlen : ¬tables.length = 0 := by simpa using h
  refine ⟨by simp [genModels, hlen], by simp, ?_⟩
  intro i t ht
  simp [List.getElem?_map, ht]

/-- Witness for C9: a duplicated table name is kept, the migrator (here an
error value) is never consulted, and order is preserved. -/
theorem C9_witness :
    genModels (fun s => s ++ "!") (Except.error "unused") ["t1", "t2", "t1"] =
      Except.ok ["t1!", "t2!", "t1!"] := by
  have h := C9_requested_tables_one_model_each String (fun s => s ++ "!")
    (Except.error "unused") ["t1", "t2", "t1"] (by decide)
  exact h.1.trans (by rfl)

/-- C10: a config file that decodes with a nil Database section is not an
error: argParse proceeds from the zero-valued configuration, onto which only
the CLI flags and the two string defaults are applied. -/
theorem C10_nil_database_section_not_fatal (f : Flags) (ycfg : YamlConfig)
    (hc : f.c ≠ "") (hnil : ycfg.Database = none) :
    argParse f (loadConfigFile (Except.ok ycfg)) =
      Except.ok (defaultStrParams (applyCmdFlags emptyCmdParams f)) := by
  simp [argParse, loadConfigFile, hc, hnil]

/-- Flags for the C10 witness. -/
def flagsC10 : Flags := { c := "cfg.yml", dsn := "root:pw@tcp(h:3306)/d" }

/-- A YamlConfig whose database section is nil. -/
def ycfgNil : YamlConfig := { Version := "0.1", Database := none }

/-- Witness for C10: a nil database section yields the zero config plus the
dsn flag and the two string defaults, not an error. -/
theorem C10_witness :
    argParse flagsC10 (loadConfigFile (Except.ok ycfgNil)) =
      Except.ok (defaultStrParams (applyCmdFlags emptyCmdParams flagsC10)) ∧
    defaultStrParams (applyCmdFlags emptyCmdParams flagsC10) =
      { DSN := "root:pw@tcp(h:3306)/d", DB := "mysql",
        OutPath := "./dao/query" } := by
  exact ⟨C10_nil_database_section_not_fatal flagsC10 ycfgNil (by decide) rfl,
    by decide⟩

end GenTool
